import Mathlib

/-
A shallow embedding of the driver-dispatch core of the Foodapp repository
(delivery/assignment.py, delivery/services.py, delivery/models.py,
delivery/views.py, delivery/tasks.py, core/utils/task_helper.py).

Database state is modelled as explicit lists of rows; Django model methods
become functions from state to state.  Timestamps are natural numbers
(seconds); `timezone.now()` is the `now` field of the state.  Decimal
columns are rationals.  Nullable columns are `Option`s.  Python truthiness
of a nullable numeric column (`if x:` is false for both `None` and `0`)
is modelled by `truthy`.  `calculate_distance` (the Haversine formula,
real-valued and hence not executable) is threaded through as an abstract
parameter `dist`; no claim below depends on its values.  Fire-and-forget
notifications (WebSocket helpers, async e-mails, task-queue submissions
made from inside the dispatch functions) are modelled as events appended
to an event log.
-/

namespace Foodapp

/-- Delivery status enum, from `Delivery.STATUS_CHOICES` in delivery/models.py. -/
inductive DStatus
  | pending
  | assigned
  | accepted
  | picked_up
  | en_route
  | arrived
  | delivered
  | cancelled
  | failed
deriving DecidableEq, Repr

/-- One row of users.User (driver fields) merged with its one-to-one
delivery.DriverAvailability row, keyed by `driver_id`. -/
structure DriverRow where
  driver_id : Nat
  is_verified_driver : Bool
  is_active : Bool
  is_online : Bool
  is_available : Bool
  current_latitude : Option ℚ
  current_longitude : Option ℚ
  average_rating : ℚ
  total_deliveries : Nat
  successful_deliveries : Nat
  cancelled_deliveries : Nat
deriving DecidableEq, Repr

/-- One row of orders.Order, restricted to the fields dispatch reads/writes. -/
structure OrderRow where
  order_id : Nat
  restaurant_latitude : Option ℚ
  restaurant_longitude : Option ℚ
  delivery_latitude : Option ℚ
  delivery_longitude : Option ℚ
  status : String
  delivered_at : Option Nat
deriving DecidableEq, Repr

/-- One row of delivery.Delivery, restricted to the fields dispatch reads/writes. -/
structure DeliveryRow where
  delivery_id : Nat
  order_id : Nat
  driver : Option Nat
  status : DStatus
  pickup_latitude : Option ℚ
  pickup_longitude : Option ℚ
  delivery_latitude : Option ℚ
  delivery_longitude : Option ℚ
  distance_km : Option ℚ
  driver_notes : String
  assigned_at : Option Nat
  accepted_at : Option Nat
  actual_delivery_time : Option Nat
deriving DecidableEq, Repr

/-- Fire-and-forget side effects emitted by the dispatch code
(WebSocket notifications, async e-mails, task-queue submissions). -/
inductive Event
  | driverNewDelivery (driver_id delivery_id : Nat)
  | driverDeliveryReassigned (driver_id delivery_id : Nat) (reason : String)
  | customerOrderStatus (order_id : Nat) (ev msg : String)
  | vendorOrderUpdate (order_id : Nat) (msg : String)
  | emailAsync (which : String) (obj_id : Nat)
  | taskTriggered (which : String) (obj_id : Nat)
deriving DecidableEq, Repr

/-- The persistent state the dispatch core reads and writes. -/
structure DB where
  orders : List OrderRow
  deliveries : List DeliveryRow
  drivers : List DriverRow
  now : Nat
  next_delivery_id : Nat
  events : List Event
deriving DecidableEq, Repr

/-- Python truthiness of a nullable numeric column: `None` and `0` are falsy. -/
def truthy (x : Option ℚ) : Bool :=
  match x with
  | none => false
  | some v => v != 0

/-- Replace every row whose key equals the key of `a` by `a`
(the effect of `row.save()` on a keyed table). -/
def setRow {α : Type} (key : α → Nat) (l : List α) (a : α) : List α :=
  l.map (fun x => if key x == key a then a else x)

def findOrder (l : List OrderRow) (oid : Nat) : Option OrderRow :=
  l.find? (fun o => o.order_id == oid)

def findDeliveryByOrder (l : List DeliveryRow) (oid : Nat) : Option DeliveryRow :=
  l.find? (fun d => d.order_id == oid)

def findDelivery (l : List DeliveryRow) (did : Nat) : Option DeliveryRow :=
  l.find? (fun d => d.delivery_id == did)

def findDriver (l : List DriverRow) (uid : Nat) : Option DriverRow :=
  l.find? (fun a => a.driver_id == uid)

def getOrder (db : DB) (oid : Nat) : Option OrderRow := findOrder db.orders oid

def getDeliveryByOrder (db : DB) (oid : Nat) : Option DeliveryRow :=
  findDeliveryByOrder db.deliveries oid

def getDelivery (db : DB) (did : Nat) : Option DeliveryRow :=
  findDelivery db.deliveries did

def getAvailability (db : DB) (uid : Nat) : Option DriverRow :=
  findDriver db.drivers uid

def setOrder (db : DB) (o : OrderRow) : DB :=
  { db with orders := setRow OrderRow.order_id db.orders o }

def setDelivery (db : DB) (d : DeliveryRow) : DB :=
  { db with deliveries := setRow DeliveryRow.delivery_id db.deliveries d }

def setDriver (db : DB) (a : DriverRow) : DB :=
  { db with drivers := setRow DriverRow.driver_id db.drivers a }

def emit (db : DB) (e : Event) : DB :=
  { db with events := db.events ++ [e] }

/-- The statuses delivery/assignment.py counts as an active delivery
(`status__in=['assigned', 'accepted', 'picked_up', 'en_route']`). -/
def activeStatuses : List DStatus := [.assigned, .accepted, .picked_up, .en_route]

/-- `Delivery.objects.filter(driver=..., status__in=[...]).count()` from
find_available_drivers in delivery/assignment.py. -/
def activeDeliveryCount (db : DB) (uid : Nat) : Nat :=
  (db.deliveries.filter
    (fun d => d.driver == some uid && activeStatuses.contains d.status)).length

/-- Abstract stand-in for calculate_distance (Haversine, assignment.py):
arguments are restaurant latitude/longitude then driver latitude/longitude.
The source raises a TypeError when fed a `None` coordinate; all call sites
below guard with `truthy` (or the claims only touch guarded states), so the
`Option.getD 0` defaulting never reaches a value the source would not. -/
def DistFn : Type := ℚ → ℚ → ℚ → ℚ → ℚ

/-- One matcher candidate: the dict
`{'driver': ..., 'availability': ..., 'distance': ...}` built in
find_available_drivers (driver and availability rows are merged here). -/
structure Candidate where
  driver : DriverRow
  distance : ℚ
deriving DecidableEq, Repr

/-- Stable insertion of an element into a list sorted by `le`: the element
goes before the first entry it compares `le` to, hence after any earlier
equal entries — the stability Python's `list.sort` guarantees. -/
def insortBy {α : Type} (le : α → α → Bool) (a : α) : List α → List α
  | [] => [a]
  | b :: l => if le a b then a :: b :: l else b :: insortBy le a l

/-- Stable sort modelling Python's `list.sort(key=...)` (Timsort is stable;
any stable sort realises the same function on every totally preordered key). -/
def sortBy {α : Type} (le : α → α → Bool) : List α → List α
  | [] => []
  | a :: l => insortBy le a (sortBy le l)

/-- The sort key of find_available_drivers:
`key=lambda x: (-x['availability'].average_rating, x['distance'])`,
as a boolean "less or equal" on candidates (lexicographic on the tuple). -/
def candLE (a b : Candidate) : Bool :=
  decide (b.driver.average_rating < a.driver.average_rating ∨
    (a.driver.average_rating = b.driver.average_rating ∧ a.distance ≤ b.distance))

/-- find_available_drivers from delivery/assignment.py.
`radius_km` defaults to 10 at the call sites that omit it. -/
def find_available_drivers (dist : DistFn) (db : DB)
    (restaurant_lat restaurant_lon : ℚ) (radius_km : ℚ) : List Candidate :=
  let available_drivers := db.drivers.filter
    (fun a => a.is_online && a.is_verified_driver && a.is_active)
  let truly_available := available_drivers.filter
    (fun a => a.is_available || activeDeliveryCount db a.driver_id == 0)
  let nearby_drivers := truly_available.filterMap (fun a =>
    if truthy a.current_latitude && truthy a.current_longitude then
      let d := dist restaurant_lat restaurant_lon
        (a.current_latitude.getD 0) (a.current_longitude.getD 0)
      if d ≤ radius_km then some ⟨a, d⟩ else none
    else
      some ⟨a, radius_km * 0.8⟩)
  sortBy candLE nearby_drivers

/-- The tail of assign_delivery_to_driver (delivery/assignment.py) after the
already-assigned early return: coordinate check, matcher call, create-or-update
of the Delivery row, order confirmation, driver notification. -/
def assign_continue (dist : DistFn) (db : DB) (order : OrderRow)
    (existing : Option DeliveryRow) : Option DeliveryRow × DB :=
  -- `if not order.restaurant.latitude or not order.restaurant.longitude: return None`
  if !truthy order.restaurant_latitude || !truthy order.restaurant_longitude then
    (none, db)
  else
    let rlat := order.restaurant_latitude.getD 0
    let rlon := order.restaurant_longitude.getD 0
    let nearby := find_available_drivers dist db rlat rlon 10
    match nearby with
    | [] => (none, db)
    | best :: _ =>
      let pair : DeliveryRow × DB :=
        match existing with
        | some d0 =>
          let d := { d0 with
            driver := some best.driver.driver_id
            status := DStatus.assigned
            pickup_latitude := order.restaurant_latitude
            pickup_longitude := order.restaurant_longitude
            delivery_latitude := order.delivery_latitude
            delivery_longitude := order.delivery_longitude
            distance_km := some best.distance
            assigned_at := some db.now }
          (d, setDelivery db d)
        | none =>
          let d : DeliveryRow := {
            delivery_id := db.next_delivery_id
            order_id := order.order_id
            driver := some best.driver.driver_id
            status := DStatus.assigned
            pickup_latitude := order.restaurant_latitude
            pickup_longitude := order.restaurant_longitude
            delivery_latitude := order.delivery_latitude
            delivery_longitude := order.delivery_longitude
            distance_km := some best.distance
            driver_notes := ""
            assigned_at := some db.now
            accepted_at := none
            actual_delivery_time := none }
          (d, { db with
                  deliveries := db.deliveries ++ [d]
                  next_delivery_id := db.next_delivery_id + 1 })
      let delivery := pair.1
      let db1 := pair.2
      -- `order.status = 'confirmed'; order.save()`
      let db2 := setOrder db1 { order with status := "confirmed" }
      -- notify_driver_new_delivery(delivery): `if not delivery.driver: return`
      let db3 :=
        match delivery.driver with
        | some uid => emit db2 (Event.driverNewDelivery uid delivery.delivery_id)
        | none => db2
      (some delivery, db3)

/-- assign_delivery_to_driver from delivery/assignment.py. -/
def assign_delivery_to_driver (dist : DistFn) (db : DB) (order_id : Nat) :
    Option DeliveryRow × DB :=
  match getOrder db order_id with
  | none => (none, db)
  | some order =>
    match getDeliveryByOrder db order_id with
    | some d =>
      -- `if hasattr(order, 'delivery') and order.delivery.driver: return order.delivery`
      if d.driver.isSome then (some d, db)
      else assign_continue dist db order (some d)
    | none => assign_continue dist db order none

/-- reassign_delivery from delivery/assignment.py.  The previous driver's
availability is restored unconditionally (no is_online check in the source). -/
def reassign_delivery (dist : DistFn) (db : DB) (delivery_id : Nat) :
    Option DeliveryRow × DB :=
  match getDelivery db delivery_id with
  | none => (none, db)
  | some delivery =>
    -- Mark previous driver as available again
    let db1 :=
      match delivery.driver with
      | some uid =>
        match getAvailability db uid with
        | some a => setDriver db { a with is_available := true }
        | none => db
      | none => db
    -- Find new driver (radius_km defaults to 10)
    let nearby := find_available_drivers dist db1
      (delivery.pickup_latitude.getD 0) (delivery.pickup_longitude.getD 0) 10
    match nearby with
    | [] =>
      let d1 := { delivery with status := DStatus.pending, driver := none }
      (none, setDelivery db1 d1)
    | best :: _ =>
      let d1 := { delivery with
        driver := some best.driver.driver_id
        status := DStatus.assigned
        assigned_at := some db1.now }
      let db2 := setDelivery db1 d1
      let db3 :=
        match d1.driver with
        | some uid => emit db2 (Event.driverNewDelivery uid d1.delivery_id)
        | none => db2
      (some d1, db3)

/-- The result dict of process_delivery_assignment (delivery/services.py);
keys absent from a given return are `none`/`false` here. -/
structure AssignResultRow where
  success : Bool
  error : Option String
  retry : Option Bool
  delivery_id : Option Nat
  driver_id : Option Nat
  already_assigned : Bool
deriving DecidableEq, Repr

/-- _mark_for_manual_assignment from delivery/services.py:
`get_or_create` keyed on order_id with pending status and a manual-assignment
note, updating status and note when the row already exists. -/
def mark_for_manual_assignment (db : DB) (order_id : Nat) (reason : String) : DB :=
  match getDeliveryByOrder db order_id with
  | some d =>
    setDelivery db { d with
      status := DStatus.pending
      driver_notes := reason ++ " - requires manual assignment" }
  | none =>
    let d : DeliveryRow := {
      delivery_id := db.next_delivery_id
      order_id := order_id
      driver := none
      status := DStatus.pending
      pickup_latitude := none
      pickup_longitude := none
      delivery_latitude := none
      delivery_longitude := none
      distance_km := none
      driver_notes := reason ++ " - requires manual assignment"
      assigned_at := none
      accepted_at := none
      actual_delivery_time := none }
    { db with
        deliveries := db.deliveries ++ [d]
        next_delivery_id := db.next_delivery_id + 1 }

/-- The driver pool count of step 3 of process_delivery_assignment
(`DriverAvailability.objects.filter(is_online=True, driver__is_verified_driver=True,
driver__is_active=True).count()`). -/
def onlineDriversCount (db : DB) : Nat :=
  (db.drivers.filter
    (fun a => a.is_online && a.is_verified_driver && a.is_active)).length

/-- _send_assignment_notifications from delivery/services.py (WebSocket to
driver, WebSocket to customer, async e-mail to driver); message texts that
interpolate names are modelled by their constant parts. -/
def send_assignment_notifications (db : DB) (d : DeliveryRow) : DB :=
  let db1 := emit db (Event.driverNewDelivery (d.driver.getD 0) d.delivery_id)
  let db2 := emit db1 (Event.customerOrderStatus d.order_id "driver_assigned"
    "Driver is on the way!")
  emit db2 (Event.emailAsync "driver_new_delivery" d.delivery_id)

/-- Steps 3-6 of process_delivery_assignment (delivery/services.py). -/
def process_step3 (dist : DistFn) (db : DB) (order_id : Nat)
    (max_retries current_retry : Nat) : AssignResultRow × DB :=
  if onlineDriversCount db == 0 then
    if current_retry ≥ max_retries then
      (⟨false, some "No drivers online", some false, none, none, false⟩,
        mark_for_manual_assignment db order_id "No drivers online")
    else
      (⟨false, some "No drivers online", some true, none, none, false⟩, db)
  else
    let pair := assign_delivery_to_driver dist db order_id
    let db1 := pair.2
    match pair.1 with
    | some d =>
      match d.driver with
      | some uid =>
        (⟨true, none, none, some d.delivery_id, some uid, false⟩,
          send_assignment_notifications db1 d)
      | none =>
        if current_retry ≥ max_retries then
          (⟨false, some "All drivers busy", some false, none, none, false⟩,
            mark_for_manual_assignment db1 order_id "All drivers busy")
        else
          (⟨false, some "All drivers busy", some true, none, none, false⟩, db1)
    | none =>
      if current_retry ≥ max_retries then
        (⟨false, some "All drivers busy", some false, none, none, false⟩,
          mark_for_manual_assignment db1 order_id "All drivers busy")
      else
        (⟨false, some "All drivers busy", some true, none, none, false⟩, db1)

/-- process_delivery_assignment from delivery/services.py
(`max_retries` defaults to 3, `current_retry` to 0 at the call sites). -/
def process_delivery_assignment (dist : DistFn) (db : DB) (order_id : Nat)
    (max_retries current_retry : Nat) : AssignResultRow × DB :=
  match getOrder db order_id with
  | none =>
    (⟨false, some "Order not found", some false, none, none, false⟩, db)
  | some _ =>
    match getDeliveryByOrder db order_id with
    | some d =>
      -- `if existing_delivery.driver and existing_delivery.status != 'pending'`
      if d.driver.isSome && d.status != DStatus.pending then
        (⟨true, none, none, some d.delivery_id, none, true⟩, db)
      else process_step3 dist db order_id max_retries current_retry
    | none => process_step3 dist db order_id max_retries current_retry

/-- Delivery.accept_delivery from delivery/models.py, as a function of the
row id (the source is an instance method; a missing row cannot occur there
and is mapped to a no-op). -/
def accept_delivery (db : DB) (delivery_id : Nat) : DB :=
  match getDelivery db delivery_id with
  | none => db
  | some d =>
    let d1 := { d with status := DStatus.accepted, accepted_at := some db.now }
    let db1 := setDelivery db d1
    -- Mark driver as busy when they accept
    match d1.driver with
    | some uid =>
      match getAvailability db1 uid with
      | some a => setDriver db1 { a with is_available := false }
      | none => db1  -- DriverAvailability.DoesNotExist: pass
    | none => db1

/-- Order.mark_as_delivered from orders/models.py: sets the order status to
'delivered' and stamps delivered_at (a missing order row cannot occur in the
source, where this is an instance method; it is mapped to a no-op). -/
def order_mark_as_delivered (db : DB) (oid : Nat) : DB :=
  match getOrder db oid with
  | some o => setOrder db { o with status := "delivered", delivered_at := some db.now }
  | none => db

/-- Delivery.mark_delivered from delivery/models.py.  Sets status and
actual_delivery_time unconditionally, marks the order delivered, emits the
notifications, then restores driver availability only if still online and
increments the delivery statistics. -/
def mark_delivered (db : DB) (delivery_id : Nat) : DB :=
  match getDelivery db delivery_id with
  | none => db
  | some d =>
    let d1 := { d with
      status := DStatus.delivered
      actual_delivery_time := some db.now }
    let db1 := setDelivery db d1
    -- self.order.mark_as_delivered()  (orders/models.py)
    let db2 := order_mark_as_delivered db1 d.order_id
    let db3 := emit db2 (Event.emailAsync "order_delivered" d.order_id)
    let db4 := emit db3 (Event.customerOrderStatus d.order_id "delivered"
      "Your order has been delivered! Enjoy your meal!")
    let db5 := emit db4 (Event.vendorOrderUpdate d.order_id
      "Order has been delivered to customer.")
    -- Restore driver availability if they're still online
    match d1.driver with
    | some uid =>
      match getAvailability db5 uid with
      | some a =>
        let a1 := if a.is_online then { a with is_available := true } else a
        -- availability.increment_deliveries(successful=True)
        let a2 := { a1 with
          total_deliveries := a1.total_deliveries + 1
          successful_deliveries := a1.successful_deliveries + 1 }
        setDriver db5 a2
      | none => db5
    | none => db5

/-- reject_delivery from delivery/views.py (the driver-facing rejection
handler).  The `rejected_at`/`rejection_reason` attributes the view sets are
not columns of the Delivery model in the source and are never persisted, so
they have no counterpart here; the final `run_task_safe(assign_delivery_async,
process_delivery_assignment, ...)` trigger is recorded as an event.  Returns
`false` when the `get_object_or_404` lookup (id, driver=user, status in
[assigned, pending]) finds nothing. -/
def reject_delivery (db : DB) (delivery_id user_id : Nat) (reason : String) :
    Bool × DB :=
  match db.deliveries.find? (fun d =>
      d.delivery_id == delivery_id && d.driver == some user_id &&
      (d.status == DStatus.assigned || d.status == DStatus.pending)) with
  | none => (false, db)
  | some d =>
    let _ := reason  -- goes only to the unpersisted rejection_reason attribute
    let d1 := { d with status := DStatus.pending, driver := none }
    let db1 := setDelivery db d1
    -- Restore driver availability (gated on is_online in the source)
    let db2 :=
      match getAvailability db1 user_id with
      | some a =>
        if a.is_online then setDriver db1 { a with is_available := true } else db1
      | none => db1
    let db3 := emit db2 (Event.customerOrderStatus d.order_id "rejected"
      "Driver rejected delivery. Finding another driver...")
    let db4 := emit db3 (Event.taskTriggered "assign_delivery" d.order_id)
    (true, db4)

/-- Result summary of check_assignment_timeout (delivery/tasks.py): which
return path the task took.  `crash` stands for the uncaught TypeError the
source raises when `assigned_at` is null while the status is `assigned`;
`import_error` stands for the uncaught ImportError raised at tasks.py line
66 — the timed-out branch with a driver executes a from-import of
notify_driver_delivery_reassigned from core.utils.websocket_notifications,
but no such name is defined anywhere in the repository, so the task aborts
there (the sole handler catches only Delivery.DoesNotExist).  Both aborts
leave the state unmutated. -/
inductive TimeoutAction
  | reassigned_ok
  | reassigned_no_driver
  | no_action (st : DStatus)
  | not_found
  | crash
  | import_error
deriving DecidableEq, Repr

/-- `getattr(settings, 'DELIVERY_ASSIGNMENT_TIMEOUT', 300)`; the settings
module does not define the key, so the default applies. -/
def DELIVERY_ASSIGNMENT_TIMEOUT : Nat := 300

/-- check_assignment_timeout from delivery/tasks.py.  On the timed-out
branch the source first runs, under `if delivery.driver:`, a from-import of
notify_driver_delivery_reassigned — a name that exists nowhere in the
repository — so with a driver present the task raises an uncaught
ImportError and aborts before any notification or reassignment; only with
`driver = None` (guard falsy, the import never executes) does it proceed to
reassign_delivery. -/
def check_assignment_timeout (dist : DistFn) (db : DB) (delivery_id : Nat) :
    TimeoutAction × DB :=
  match getDelivery db delivery_id with
  | none => (TimeoutAction.not_found, db)
  | some delivery =>
    if delivery.status == DStatus.assigned then
      match delivery.assigned_at with
      | none => (TimeoutAction.crash, db)
      | some t =>
        if (db.now : ℤ) - (t : ℤ) ≥ (DELIVERY_ASSIGNMENT_TIMEOUT : ℤ) then
          match delivery.driver with
          | some _ =>
            -- `if delivery.driver:` then the from-import of the missing
            -- notify_driver_delivery_reassigned raises; task aborts.
            (TimeoutAction.import_error, db)
          | none =>
            -- Reassign to next driver (no notification: guard was falsy)
            let pair := reassign_delivery dist db delivery_id
            match pair.1 with
            | some d2 =>
              if d2.driver.isSome then
                (TimeoutAction.reassigned_ok,
                  emit pair.2 (Event.taskTriggered "notify_driver" d2.delivery_id))
              else (TimeoutAction.reassigned_no_driver, pair.2)
            | none => (TimeoutAction.reassigned_no_driver, pair.2)
        else (TimeoutAction.no_action delivery.status, db)
    else (TimeoutAction.no_action delivery.status, db)

/-- The `ENABLE_CELERY` feature flag read by run_task_safe
(core/utils/task_helper.py). -/
structure TaskConfig where
  ENABLE_CELERY : Bool
deriving DecidableEq, Repr

/-- Environment oracle for run_task_safe: whether each tier would succeed
(queue submission, thread start, the synchronous call itself). -/
structure TaskEnv where
  queue_submit_ok : Bool
  thread_start_ok : Bool
  sync_call_ok : Bool
deriving DecidableEq, Repr

/-- Which tier of run_task_safe handled the work. -/
inductive TaskTier
  | queued
  | thread_started
  | ran_inline (ok : Bool)
deriving DecidableEq, Repr

/-- The fallback block of run_task_safe: start a daemon thread, and if that
fails run the synchronous function inline as a last resort. -/
def run_fallback (env : TaskEnv) : TaskTier :=
  if env.thread_start_ok then TaskTier.thread_started
  else TaskTier.ran_inline env.sync_call_ok

/-- run_task_safe from core/utils/task_helper.py. -/
def run_task_safe (cfg : TaskConfig) (env : TaskEnv) : TaskTier :=
  if cfg.ENABLE_CELERY then
    if env.queue_submit_ok then TaskTier.queued
    else run_fallback env
  else run_fallback env

/-- The boolean run_task_safe returns: true from the queued and threaded
tiers, the synchronous call's own success from the inline tier. -/
def TaskTier.toBool : TaskTier → Bool
  | TaskTier.queued => true
  | TaskTier.thread_started => true
  | TaskTier.ran_inline ok => ok

/-! Concrete states used by witnesses and counterexamples. -/

/-- A concrete distance function for witnesses (the claims hold for every
distance function, so any computable instance will do). -/
def dist0 : DistFn := fun _ _ _ _ => 0

/-- Witness state for the idempotent-assignment claim: one confirmed order
whose delivery is already assigned to driver 5. -/
def orderW1 : OrderRow :=
  ⟨1, some 6, some 3, some 7, some 4, "confirmed", none⟩

def deliveryW1 : DeliveryRow :=
  ⟨11, 1, some 5, DStatus.assigned, some 6, some 3, some 7, some 4,
    some 2, "", some 100, none, none⟩

def dbW1 : DB :=
  ⟨[orderW1], [deliveryW1], [], 200, 12, []⟩

/-- Counterexample state for the invalid-transition claim: order 2 with a
delivery still pending assignment (no driver). -/
def dbC2 : DB :=
  ⟨[⟨2, some 1, some 1, none, none, "confirmed", none⟩],
   [⟨21, 2, none, DStatus.pending, none, none, none, none, none, "", none, none, none⟩],
   [], 500, 22, []⟩

/-- Counterexample state for the availability-restore claim: driver 7 is
offline (and unavailable) but still holds delivery 3. -/
def driverC3 : DriverRow :=
  ⟨7, true, true, false, false, none, none, 4, 0, 0, 0⟩

def dbC3 : DB :=
  ⟨[⟨3, some 1, some 1, none, none, "confirmed", none⟩],
   [⟨31, 3, some 7, DStatus.assigned, some 1, some 1, none, none, none, "", some 10, none, none⟩],
   [driverC3], 400, 32, []⟩

/-- Witness state for the matcher claims: driver 6 qualifies but has no
known location; driver 8 qualifies with zero coordinates. -/
def driverW5 : DriverRow :=
  ⟨6, true, true, true, true, none, none, 5, 0, 0, 0⟩

def dbW5 : DB :=
  ⟨[], [], [driverW5], 0, 1, []⟩

def driverW10 : DriverRow :=
  ⟨8, true, true, true, true, some 0, some 3, 5, 0, 0, 0⟩

def dbW10 : DB :=
  ⟨[], [], [driverW10], 0, 1, []⟩

/-- Witness states for the retry-escalation claim: order 4 with no online
drivers; order 5 with one online driver who is busy (active delivery for
order 99) and therefore no suitable candidate. -/
def dbW6a : DB :=
  ⟨[⟨4, some 2, some 2, none, none, "pending", none⟩], [], [], 0, 1, []⟩

def driverW6 : DriverRow :=
  ⟨9, true, true, true, false, some 2, some 2, 3, 1, 1, 0⟩

def dbW6b : DB :=
  ⟨[⟨5, some 2, some 2, none, none, "pending", none⟩],
   [⟨90, 99, some 9, DStatus.accepted, some 2, some 2, none, none, none, "", some 1, some 2, none⟩],
   [driverW6], 50, 91, []⟩

/-- Counterexample state for the assignment-does-not-claim-driver claim:
driver 1 is online and qualified but unavailable (he accepted delivery 1);
reassigning delivery 1 releases him and immediately re-chooses him. -/
def driverC7 : DriverRow :=
  ⟨1, true, true, true, false, none, none, 0, 0, 0, 0⟩

def deliveryC7 : DeliveryRow :=
  ⟨1, 1, some 1, DStatus.accepted, some 5, some 5, none, none, none, "", some 10, some 20, none⟩

def dbC7 : DB :=
  ⟨[⟨1, some 5, some 5, none, none, "confirmed", none⟩], [deliveryC7], [driverC7], 30, 2, []⟩

/-- Witness state for the accept branch of the amended claim: delivery 41
assigned to driver 2, who has an availability row. -/
def driverW7 : DriverRow :=
  ⟨2, true, true, true, true, some 1, some 1, 4, 0, 0, 0⟩

def deliveryW7 : DeliveryRow :=
  ⟨41, 40, some 2, DStatus.assigned, some 1, some 1, none, none, none, "", some 5, none, none⟩

def dbW7 : DB :=
  ⟨[⟨40, some 1, some 1, none, none, "confirmed", none⟩], [deliveryW7], [driverW7], 60, 42, []⟩

/-- Witness state for the timeout-escalation claim: delivery 4 has been
`assigned` to driver 9 since t=0 and it is now t=301, with no drivers online
to take it over. -/
def deliveryW8 : DeliveryRow :=
  ⟨4, 4, some 9, DStatus.assigned, some 2, some 2, none, none, none, "", some 0, none, none⟩

def dbW8 : DB :=
  ⟨[⟨4, some 2, some 2, none, none, "confirmed", none⟩], [deliveryW8], [], 301, 5, []⟩

/-- A timed-out assigned delivery with no driver (the degenerate path on
which the source does reach reassign_delivery, since the driver guard is
falsy and the failing from-import never executes). -/
def deliveryW8b : DeliveryRow :=
  ⟨8, 8, none, DStatus.assigned, some 2, some 2, none, none, none, "", some 0, none, none⟩

def dbW8b : DB :=
  ⟨[⟨8, some 2, some 2, none, none, "confirmed", none⟩], [deliveryW8b], [], 301, 9, []⟩

/-- Witness state for the invalid-transition amended claim and the
availability-restore amended claim: delivery 51 en route with driver 3
online, plus offline driver 4 holding delivery 52. -/
def driverW2 : DriverRow :=
  ⟨3, true, true, true, false, some 1, some 1, 4, 2, 2, 0⟩

def driverW3 : DriverRow :=
  ⟨4, true, true, false, false, some 1, some 1, 4, 2, 2, 0⟩

def deliveryW2 : DeliveryRow :=
  ⟨51, 6, some 3, DStatus.en_route, some 1, some 1, none, none, none, "", some 5, some 6, none⟩

def deliveryW3 : DeliveryRow :=
  ⟨52, 7, some 4, DStatus.assigned, some 1, some 1, none, none, none, "", some 5, none, none⟩

def dbW2 : DB :=
  ⟨[⟨6, some 1, some 1, none, none, "out_for_delivery", none⟩,
    ⟨7, some 1, some 1, none, none, "confirmed", none⟩],
   [deliveryW2, deliveryW3], [driverW2, driverW3], 700, 53, []⟩

/-! Structural lemmas: which state fields each primitive update touches. -/

@[simp] theorem deliveries_emit (db : DB) (e : Event) :
    (emit db e).deliveries = db.deliveries := rfl

@[simp] theorem drivers_emit (db : DB) (e : Event) :
    (emit db e).drivers = db.drivers := rfl

@[simp] theorem orders_emit (db : DB) (e : Event) :
    (emit db e).orders = db.orders := rfl

@[simp] theorem now_emit (db : DB) (e : Event) : (emit db e).now = db.now := rfl

@[simp] theorem events_emit (db : DB) (e : Event) :
    (emit db e).events = db.events ++ [e] := rfl

@[simp] theorem deliveries_setOrder (db : DB) (o : OrderRow) :
    (setOrder db o).deliveries = db.deliveries := rfl

@[simp] theorem drivers_setOrder (db : DB) (o : OrderRow) :
    (setOrder db o).drivers = db.drivers := rfl

@[simp] theorem events_setOrder (db : DB) (o : OrderRow) :
    (setOrder db o).events = db.events := rfl

@[simp] theorem deliveries_setDriver (db : DB) (a : DriverRow) :
    (setDriver db a).deliveries = db.deliveries := rfl

@[simp] theorem orders_setDriver (db : DB) (a : DriverRow) :
    (setDriver db a).orders = db.orders := rfl

@[simp] theorem events_setDriver (db : DB) (a : DriverRow) :
    (setDriver db a).events = db.events := rfl

@[simp] theorem drivers_setDelivery (db : DB) (d : DeliveryRow) :
    (setDelivery db d).drivers = db.drivers := rfl

@[simp] theorem orders_setDelivery (db : DB) (d : DeliveryRow) :
    (setDelivery db d).orders = db.orders := rfl

@[simp] theorem events_setDelivery (db : DB) (d : DeliveryRow) :
    (setDelivery db d).events = db.events := rfl

@[simp] theorem deliveries_setDelivery (db : DB) (d : DeliveryRow) :
    (setDelivery db d).deliveries = setRow DeliveryRow.delivery_id db.deliveries d := rfl

@[simp] theorem drivers_setDriver (db : DB) (a : DriverRow) :
    (setDriver db a).drivers = setRow DriverRow.driver_id db.drivers a := rfl

@[simp] theorem now_setDelivery (db : DB) (d : DeliveryRow) :
    (setDelivery db d).now = db.now := rfl

@[simp] theorem now_setDriver (db : DB) (a : DriverRow) :
    (setDriver db a).now = db.now := rfl

@[simp] theorem now_setOrder (db : DB) (o : OrderRow) :
    (setOrder db o).now = db.now := rfl

/-! Generic lemmas about `find?` over a keyed update. -/

/-- After writing a row `a'` that carries the key of the row `find?` was
returning, `find?` returns `a'`. -/
theorem findRow_setRow_eq {α : Type} (key : α → Nat) (l : List α) (k : Nat)
    (a a' : α) (h : l.find? (fun x => key x == k) = some a) (hk : key a' = key a) :
    (setRow key l a').find? (fun x => key x == k) = some a' := by
  induction l with
  | nil => simp [List.find?] at h
  | cons hd tl ih =>
    by_cases hhd : (key hd == k) = true
    · have hda : hd = a := by
        have h2 := h
        rw [@List.find?_cons_of_pos _ (fun x => key x == k) hd tl hhd] at h2
        exact Option.some.inj h2
      have hcond : (key hd == key a') = true := by
        rw [hk, hda]; exact beq_self_eq_true _
      have hfk : (key a' == k) = true := by
        have h3 : key a' = key hd := by rw [hk, hda]
        rw [h3]; exact hhd
      simp only [setRow, List.map, if_pos hcond]
      exact @List.find?_cons_of_pos _ (fun x => key x == k) a'
        (List.map (fun x => if (key x == key a') = true then a' else x) tl) hfk
    · have htl : tl.find? (fun x => key x == k) = some a := by
        have h2 := h
        rwa [@List.find?_cons_of_neg _ (fun x => key x == k) hd tl hhd] at h2
      have hak := List.find?_some htl
      have hcond : ¬ (key hd == key a') = true := by
        intro hcon
        apply hhd
        have h1 : key hd = key a' := eq_of_beq hcon
        have h2 : key a = k := eq_of_beq hak
        rw [h1, hk, h2]
        exact beq_self_eq_true k
      simp only [setRow, List.map, if_neg hcond]
      rw [@List.find?_cons_of_neg _ (fun x => key x == k) hd
        (List.map (fun x => if (key x == key a') = true then a' else x) tl) hhd]
      exact ih htl

/-- Writing a row whose key differs from the searched key does not change
what `find?` returns. -/
theorem findRow_setRow_ne {α : Type} (key : α → Nat) (l : List α) (k : Nat)
    (a' : α) (hk : key a' ≠ k) :
    (setRow key l a').find? (fun x => key x == k) = l.find? (fun x => key x == k) := by
  induction l with
  | nil => rfl
  | cons hd tl ih =>
    by_cases hhd : (key hd == key a') = true
    · have hne : ¬ (key a' == k) = true := by
        intro hcon; exact hk (eq_of_beq hcon)
      have hne2 : ¬ (key hd == k) = true := by
        intro hcon
        apply hk
        have h1 : key hd = key a' := eq_of_beq hhd
        rw [← h1]
        exact eq_of_beq hcon
      simp only [setRow, List.map, if_pos hhd]
      rw [@List.find?_cons_of_neg _ (fun x => key x == k) a'
        (List.map (fun x => if (key x == key a') = true then a' else x) tl) hne]
      rw [@List.find?_cons_of_neg _ (fun x => key x == k) hd tl hne2]
      exact ih
    · simp only [setRow, List.map, if_neg hhd]
      by_cases hcase : (key hd == k) = true
      · rw [@List.find?_cons_of_pos _ (fun x => key x == k) hd
          (List.map (fun x => if (key x == key a') = true then a' else x) tl) hcase]
        rw [@List.find?_cons_of_pos _ (fun x => key x == k) hd tl hcase]
      · rw [@List.find?_cons_of_neg _ (fun x => key x == k) hd
          (List.map (fun x => if (key x == key a') = true then a' else x) tl) hcase]
        rw [@List.find?_cons_of_neg _ (fun x => key x == k) hd tl hcase]
        exact ih

/-- If nothing in `l` satisfies `p` and `a` does, appending `a` makes
`find?` return it. -/
theorem find?_append_of_none {α : Type} (p : α → Bool) (l : List α) (a : α)
    (h : l.find? p = none) (ha : p a = true) :
    (l ++ [a]).find? p = some a := by
  induction l with
  | nil => simp [List.find?, ha]
  | cons hd tl ih =>
    by_cases hhd : p hd = true
    · rw [@List.find?_cons_of_pos _ p hd tl hhd] at h
      exact absurd h (by simp)
    · have htl : tl.find? p = none := by
        have h2 := h
        rwa [@List.find?_cons_of_neg _ p hd tl hhd] at h2
      rw [List.cons_append]
      rw [@List.find?_cons_of_neg _ p hd (tl ++ [a]) hhd]
      exact ih htl

/-! Reads are unaffected by writes to other tables. -/

@[simp] theorem getAvailability_emit (db : DB) (e : Event) (uid : Nat) :
    getAvailability (emit db e) uid = getAvailability db uid := rfl

@[simp] theorem getAvailability_setOrder (db : DB) (o : OrderRow) (uid : Nat) :
    getAvailability (setOrder db o) uid = getAvailability db uid := rfl

@[simp] theorem getAvailability_setDelivery (db : DB) (d : DeliveryRow) (uid : Nat) :
    getAvailability (setDelivery db d) uid = getAvailability db uid := rfl

@[simp] theorem getDelivery_emit (db : DB) (e : Event) (did : Nat) :
    getDelivery (emit db e) did = getDelivery db did := rfl

@[simp] theorem getDelivery_setOrder (db : DB) (o : OrderRow) (did : Nat) :
    getDelivery (setOrder db o) did = getDelivery db did := rfl

@[simp] theorem getDelivery_setDriver (db : DB) (a : DriverRow) (did : Nat) :
    getDelivery (setDriver db a) did = getDelivery db did := rfl

@[simp] theorem getDeliveryByOrder_emit (db : DB) (e : Event) (oid : Nat) :
    getDeliveryByOrder (emit db e) oid = getDeliveryByOrder db oid := rfl

@[simp] theorem getDeliveryByOrder_setOrder (db : DB) (o : OrderRow) (oid : Nat) :
    getDeliveryByOrder (setOrder db o) oid = getDeliveryByOrder db oid := rfl

@[simp] theorem getDeliveryByOrder_setDriver (db : DB) (a : DriverRow) (oid : Nat) :
    getDeliveryByOrder (setDriver db a) oid = getDeliveryByOrder db oid := rfl

@[simp] theorem getOrder_emit (db : DB) (e : Event) (oid : Nat) :
    getOrder (emit db e) oid = getOrder db oid := rfl

@[simp] theorem getOrder_setDelivery (db : DB) (d : DeliveryRow) (oid : Nat) :
    getOrder (setDelivery db d) oid = getOrder db oid := rfl

@[simp] theorem getOrder_setDriver (db : DB) (a : DriverRow) (oid : Nat) :
    getOrder (setDriver db a) oid = getOrder db oid := rfl

@[simp] theorem deliveries_order_mark_as_delivered (db : DB) (oid : Nat) :
    (order_mark_as_delivered db oid).deliveries = db.deliveries := by
  unfold order_mark_as_delivered
  split <;> rfl

@[simp] theorem drivers_order_mark_as_delivered (db : DB) (oid : Nat) :
    (order_mark_as_delivered db oid).drivers = db.drivers := by
  unfold order_mark_as_delivered
  split <;> rfl

@[simp] theorem now_order_mark_as_delivered (db : DB) (oid : Nat) :
    (order_mark_as_delivered db oid).now = db.now := by
  unfold order_mark_as_delivered
  split <;> rfl

@[simp] theorem getAvailability_order_mark_as_delivered (db : DB) (oid uid : Nat) :
    getAvailability (order_mark_as_delivered db oid) uid = getAvailability db uid := by
  unfold order_mark_as_delivered
  split <;> rfl

@[simp] theorem getDelivery_order_mark_as_delivered (db : DB) (oid did : Nat) :
    getDelivery (order_mark_as_delivered db oid) did = getDelivery db did := by
  unfold order_mark_as_delivered
  split <;> rfl

/-- `candLE` is transitive: the lexicographic key order composes. -/
theorem candLE_trans (a b c : Candidate) (h1 : candLE a b = true)
    (h2 : candLE b c = true) : candLE a c = true := by
  unfold candLE at h1 h2 ⊢
  rw [decide_eq_true_iff] at h1 h2 ⊢
  rcases h1 with h1 | ⟨h1e, h1d⟩
  · rcases h2 with h2 | ⟨h2e, h2d⟩
    · exact Or.inl (lt_trans h2 h1)
    · exact Or.inl (h2e ▸ h1)
  · rcases h2 with h2 | ⟨h2e, h2d⟩
    · exact Or.inl (h1e ▸ h2)
    · exact Or.inr ⟨h1e.trans h2e, h1d.trans h2d⟩

/-- `candLE` is total. -/
theorem candLE_total (a b : Candidate) : (candLE a b || candLE b a) = true := by
  unfold candLE
  rw [Bool.or_eq_true, decide_eq_true_iff, decide_eq_true_iff]
  rcases lt_trichotomy a.driver.average_rating b.driver.average_rating with h | h | h
  · exact Or.inr (Or.inl h)
  · rcases le_total a.distance b.distance with hd | hd
    · exact Or.inl (Or.inr ⟨h, hd⟩)
    · exact Or.inr (Or.inr ⟨h.symm, hd⟩)
  · exact Or.inl (Or.inl h)

/-- Membership is preserved by stable insertion. -/
theorem mem_insortBy {α : Type} (le : α → α → Bool) (a x : α) (l : List α) :
    x ∈ insortBy le a l ↔ x = a ∨ x ∈ l := by
  induction l with
  | nil => simp [insortBy]
  | cons b t ih =>
    by_cases h : le a b = true
    · rw [insortBy, if_pos h]
      simp only [List.mem_cons]
      try tauto
    · rw [insortBy, if_neg h]
      simp only [List.mem_cons, ih]
      try tauto

/-- Membership is preserved by the stable sort. -/
theorem mem_sortBy {α : Type} (le : α → α → Bool) (x : α) (l : List α) :
    x ∈ sortBy le l ↔ x ∈ l := by
  induction l with
  | nil => simp [sortBy]
  | cons b t ih =>
    rw [sortBy, mem_insortBy]
    simp [ih]

/-- Stable insertion into a sorted list keeps it sorted, given a transitive
and total comparison. -/
theorem pairwise_insortBy {α : Type} (le : α → α → Bool)
    (htrans : ∀ a b c, le a b = true → le b c = true → le a c = true)
    (htotal : ∀ a b, (le a b || le b a) = true)
    (a : α) (l : List α) (hl : List.Pairwise (fun x y => le x y = true) l) :
    List.Pairwise (fun x y => le x y = true) (insortBy le a l) := by
  induction l with
  | nil => simp [insortBy]
  | cons b t ih =>
    rcases List.pairwise_cons.mp hl with ⟨hb, ht⟩
    by_cases h : le a b = true
    · rw [insortBy, if_pos h]
      refine List.pairwise_cons.mpr ⟨?_, hl⟩
      intro z hz
      rcases List.mem_cons.mp hz with rfl | hz2
      · exact h
      · exact htrans a b z h (hb z hz2)
    · rw [insortBy, if_neg h]
      have hba : le b a = true := by
        rcases Bool.or_eq_true_iff.mp (htotal a b) with hx | hx
        · exact absurd hx h
        · exact hx
      refine List.pairwise_cons.mpr ⟨?_, ih ht⟩
      intro z hz
      rcases (mem_insortBy le a z t).mp hz with rfl | hz2
      · exact hba
      · exact hb z hz2

/-- The stable sort produces a list sorted by `le`, given a transitive and
total comparison. -/
theorem pairwise_sortBy {α : Type} (le : α → α → Bool)
    (htrans : ∀ a b c, le a b = true → le b c = true → le a c = true)
    (htotal : ∀ a b, (le a b || le b a) = true) (l : List α) :
    List.Pairwise (fun x y => le x y = true) (sortBy le l) := by
  induction l with
  | nil => simp [sortBy]
  | cons b t ih =>
    rw [sortBy]
    exact pairwise_insortBy le htrans htotal b (sortBy le t) ih

/-- A qualifying driver whose coordinate pair fails Python truthiness is
included by find_available_drivers at the synthetic distance
`radius_km * 0.8` (the unknown-location branch of the source). -/
theorem synthetic_distance_mem (dist : DistFn) (db : DB) (rlat rlon radius : ℚ)
    (a : DriverRow) (hmem : a ∈ db.drivers)
    (h1 : a.is_online = true) (h2 : a.is_verified_driver = true)
    (h3 : a.is_active = true)
    (h4 : a.is_available = true ∨ activeDeliveryCount db a.driver_id = 0)
    (h5 : (truthy a.current_latitude && truthy a.current_longitude) = false) :
    (⟨a, radius * 0.8⟩ : Candidate) ∈ find_available_drivers dist db rlat rlon radius := by
  simp only [find_available_drivers]
  rw [mem_sortBy]
  apply List.mem_filterMap.mpr
  refine ⟨a, ?_, ?_⟩
  · apply List.mem_filter.mpr
    refine ⟨List.mem_filter.mpr ⟨hmem, ?_⟩, ?_⟩
    · rw [h1, h2, h3]; rfl
    · rcases h4 with h4 | h4
      · rw [h4]; rfl
      · rw [h4]
        simp
  · rw [h5]
    rfl

/-- C4: Matcher ranking — find_available_drivers returns its candidates
sorted ascending by the key (-rating, distance): every ordered pair of the
output satisfies the lexicographic key order, so the earlier of any two
candidates has an average_rating at least as high, and strictly higher
whenever the two ratings differ, regardless of the distances. -/
theorem c4_matcher_ranking (dist : DistFn) (db : DB) (rlat rlon radius : ℚ) :
    List.Pairwise (fun a b => candLE a b = true)
      (find_available_drivers dist db rlat rlon radius) ∧
    List.Pairwise (fun a b =>
        b.driver.average_rating ≤ a.driver.average_rating ∧
        (a.driver.average_rating ≠ b.driver.average_rating →
          b.driver.average_rating < a.driver.average_rating))
      (find_available_drivers dist db rlat rlon radius) := by
  have hs : List.Pairwise (fun a b => candLE a b = true)
      (find_available_drivers dist db rlat rlon radius) := by
    simp only [find_available_drivers]
    exact pairwise_sortBy candLE candLE_trans candLE_total _
  refine ⟨hs, List.Pairwise.imp ?_ hs⟩
  intro a b hab
  unfold candLE at hab
  rw [decide_eq_true_iff] at hab
  rcases hab with h | ⟨he, _⟩
  · exact ⟨le_of_lt h, fun _ => h⟩
  · exact ⟨le_of_eq he.symm, fun hne => absurd he hne⟩

/-- C5: Unknown-location inclusion — an otherwise-qualifying driver whose
current_latitude is null is included in the candidate list at the synthetic
distance radius_km * 0.8 rather than excluded. -/
theorem c5_unknown_location_inclusion (dist : DistFn) (db : DB)
    (rlat rlon radius : ℚ) (a : DriverRow) (hmem : a ∈ db.drivers)
    (h1 : a.is_online = true) (h2 : a.is_verified_driver = true)
    (h3 : a.is_active = true)
    (h4 : a.is_available = true ∨ activeDeliveryCount db a.driver_id = 0)
    (hlat : a.current_latitude = none) :
    (⟨a, radius * 0.8⟩ : Candidate) ∈ find_available_drivers dist db rlat rlon radius :=
  synthetic_distance_mem dist db rlat rlon radius a hmem h1 h2 h3 h4
    (by rw [hlat]; rfl)

/-- Witness for C5 at a concrete state: driver 6 (online, verified, active,
available, no location) lands in the candidates at distance 10 * 0.8. -/
theorem c5_witness :
    (⟨driverW5, 10 * 0.8⟩ : Candidate) ∈ find_available_drivers dist0 dbW5 0 0 10 :=
  c5_unknown_location_inclusion dist0 dbW5 0 0 10 driverW5 (by decide)
    rfl rfl rfl (Or.inl rfl) rfl

/-- C10: Zero coordinates treated as unknown location — because the source
tests the coordinates with Python truthiness (`if availability.current_latitude
and availability.current_longitude:`), a qualifying driver with
current_latitude = 0 or current_longitude = 0 takes the no-location branch:
included at synthetic distance radius_km * 0.8 for every distance function,
with no Haversine computation or radius filter applied to them. -/
theorem c10_zero_coordinates_unknown (dist : DistFn) (db : DB)
    (rlat rlon radius : ℚ) (a : DriverRow) (hmem : a ∈ db.drivers)
    (h1 : a.is_online = true) (h2 : a.is_verified_driver = true)
    (h3 : a.is_active = true)
    (h4 : a.is_available = true ∨ activeDeliveryCount db a.driver_id = 0)
    (hzero : a.current_latitude = some 0 ∨ a.current_longitude = some 0) :
    (⟨a, radius * 0.8⟩ : Candidate) ∈ find_available_drivers dist db rlat rlon radius := by
  apply synthetic_distance_mem dist db rlat rlon radius a hmem h1 h2 h3 h4
  rcases hzero with hz | hz
  · have hf : truthy a.current_latitude = false := by rw [hz]; decide
    rw [hf, Bool.false_and]
  · have hf : truthy a.current_longitude = false := by rw [hz]; decide
    rw [hf, Bool.and_false]

/-- Witness for C10 at a concrete state: driver 8 sits at latitude exactly 0
(longitude 3) and is still included at the synthetic distance 10 * 0.8. -/
theorem c10_witness :
    (⟨driverW10, 10 * 0.8⟩ : Candidate) ∈ find_available_drivers dist0 dbW10 0 0 10 :=
  c10_zero_coordinates_unknown dist0 dbW10 0 0 10 driverW10 (by decide)
    rfl rfl rfl (Or.inl rfl) (Or.inl rfl)

/-- C1: Idempotent assignment — for an order whose existing delivery already
has a non-null driver and a status other than pending, with no intervening
state change: process_delivery_assignment returns success carrying that same
delivery id, leaves the state (in particular the set of Delivery rows)
untouched, a second call returns the identical result, and
assign_delivery_to_driver likewise returns the existing delivery with no
mutation. -/
theorem c1_idempotent_assignment (dist : DistFn) (db : DB) (oid mr cr : Nat)
    (o : OrderRow) (d : DeliveryRow)
    (ho : getOrder db oid = some o)
    (hd : getDeliveryByOrder db oid = some d)
    (hdrv : d.driver.isSome = true)
    (hst : d.status ≠ DStatus.pending) :
    process_delivery_assignment dist db oid mr cr =
      (⟨true, none, none, some d.delivery_id, none, true⟩, db) ∧
    process_delivery_assignment dist
        (process_delivery_assignment dist db oid mr cr).2 oid mr cr =
      process_delivery_assignment dist db oid mr cr ∧
    (process_delivery_assignment dist db oid mr cr).2.deliveries = db.deliveries ∧
    assign_delivery_to_driver dist db oid = (some d, db) := by
  have hcond : (d.driver.isSome && d.status != DStatus.pending) = true := by
    rw [hdrv, Bool.true_and, bne_iff_ne]
    exact hst
  have h1 : process_delivery_assignment dist db oid mr cr =
      (⟨true, none, none, some d.delivery_id, none, true⟩, db) := by
    unfold process_delivery_assignment
    simp [ho, hd, hcond]
  have h4 : assign_delivery_to_driver dist db oid = (some d, db) := by
    unfold assign_delivery_to_driver
    simp [ho, hd, hdrv]
  refine ⟨h1, ?_, ?_, h4⟩
  · rw [h1, h1]
  · rw [h1]

/-- Witness for C1 at a concrete state: order 1 with delivery 11 already
assigned to driver 5. -/
theorem c1_witness :
    process_delivery_assignment dist0 dbW1 1 3 0 =
      (⟨true, none, none, some deliveryW1.delivery_id, none, true⟩, dbW1) ∧
    process_delivery_assignment dist0
        (process_delivery_assignment dist0 dbW1 1 3 0).2 1 3 0 =
      process_delivery_assignment dist0 dbW1 1 3 0 ∧
    (process_delivery_assignment dist0 dbW1 1 3 0).2.deliveries = dbW1.deliveries ∧
    assign_delivery_to_driver dist0 dbW1 1 = (some deliveryW1, dbW1) :=
  c1_idempotent_assignment dist0 dbW1 1 3 0 orderW1 deliveryW1 (by decide)
    (by decide) (by decide) (by decide)

/-- mark_delivered rewrites the delivery table by saving the row with
status delivered and the completion time, no matter what the starting
status was. -/
theorem deliveries_mark_delivered (db : DB) (did : Nat) (d : DeliveryRow)
    (h : getDelivery db did = some d) :
    (mark_delivered db did).deliveries =
      setRow DeliveryRow.delivery_id db.deliveries
        { d with status := DStatus.delivered, actual_delivery_time := some db.now } := by
  unfold mark_delivered
  rw [h]
  dsimp only
  repeat' split
  all_goals simp

/-- C2 counterexample: on the concrete state dbC2, delivery 21 has status
pending, yet mark_delivered mutates it to delivered and raises nothing —
refuting the claim that the call leaves a pending delivery unchanged while
signalling InvalidTransition. -/
theorem c2_counterexample :
    (getDelivery dbC2 21).map DeliveryRow.status = some DStatus.pending ∧
    ¬ ((getDelivery (mark_delivered dbC2 21) 21).map DeliveryRow.status
        = some DStatus.pending) ∧
    (getDelivery (mark_delivered dbC2 21) 21).map DeliveryRow.status
      = some DStatus.delivered := by
  refine ⟨by decide, by decide, by decide⟩

/-- C2 (amended): Delivery.mark_delivered performs no transition check at
all — invoked on a delivery in any status, including pending, it
unconditionally sets the status to delivered and stamps
actual_delivery_time, mutating state instead of signalling
InvalidTransition (no transition table is enforced anywhere in the code). -/
theorem c2_mark_delivered_unconditional (db : DB) (did : Nat) (d : DeliveryRow)
    (h : getDelivery db did = some d) :
    (getDelivery (mark_delivered db did) did).map DeliveryRow.status
      = some DStatus.delivered ∧
    (getDelivery (mark_delivered db did) did).map DeliveryRow.actual_delivery_time
      = some (some db.now) := by
  have hfind : getDelivery (mark_delivered db did) did =
      some { d with status := DStatus.delivered, actual_delivery_time := some db.now } := by
    have hdel := deliveries_mark_delivered db did d h
    unfold getDelivery findDelivery
    rw [hdel]
    exact findRow_setRow_eq DeliveryRow.delivery_id db.deliveries did d _ h rfl
  rw [hfind]
  exact ⟨rfl, rfl⟩

/-- Witness for the amended C2: on dbW2, delivery 51 (en route) ends up
delivered with the completion time stamped. -/
theorem c2_witness :
    (getDelivery (mark_delivered dbW2 51) 51).map DeliveryRow.status
      = some DStatus.delivered ∧
    (getDelivery (mark_delivered dbW2 51) 51).map DeliveryRow.actual_delivery_time
      = some (some dbW2.now) :=
  c2_mark_delivered_unconditional dbW2 51 deliveryW2 (by decide)

/-- C3 counterexample: in dbC3, driver 7 is offline (is_online = false) with
is_available = false, yet reassign_delivery on their delivery 31 sets
is_available back to true — refuting the claim that a released offline
is_available of a released offline driver stays false. -/
theorem c3_counterexample :
    (getAvailability dbC3 7).map DriverRow.is_online = some false ∧
    (getAvailability dbC3 7).map DriverRow.is_available = some false ∧
    (getAvailability (reassign_delivery dist0 dbC3 31).2 7).map DriverRow.is_available
      = some true := by
  refine ⟨by decide, by decide, by decide⟩

/-- C3 (amended): the is_online gate on restoring the availability of a
released driver availability holds for delivery completion (mark_delivered) and rejection
(reject_delivery), whose restores evaluate to
`if is_online then true else <unchanged>`; but reassignment-away
(reassign_delivery) sets the is_available of the previous driver to true
unconditionally, even when the driver is offline. -/
theorem c3_availability_restore_amended :
    (∀ db did d uid a, getDelivery db did = some d → d.driver = some uid →
        getAvailability db uid = some a →
        (getAvailability (mark_delivered db did) uid).map DriverRow.is_available =
          some (if a.is_online then true else a.is_available)) ∧
    (∀ db did uid reason d a,
        db.deliveries.find? (fun x => x.delivery_id == did && x.driver == some uid &&
          (x.status == DStatus.assigned || x.status == DStatus.pending)) = some d →
        getAvailability db uid = some a →
        (getAvailability (reject_delivery db did uid reason).2 uid).map
            DriverRow.is_available =
          some (if a.is_online then true else a.is_available)) ∧
    (∀ dist db did d uid a, getDelivery db did = some d → d.driver = some uid →
        getAvailability db uid = some a →
        (getAvailability (reassign_delivery dist db did).2 uid).map
            DriverRow.is_available = some true) := by
  refine ⟨?_, ?_, ?_⟩
  · intro db did d uid a h hdr ha
    unfold mark_delivered
    rw [h]
    dsimp only
    rw [hdr]
    dsimp only
    simp only [getAvailability_emit, getAvailability_order_mark_as_delivered,
      getAvailability_setDelivery, ha]
    unfold getAvailability findDriver
    simp only [drivers_setDriver, drivers_emit, drivers_order_mark_as_delivered,
      drivers_setDelivery]
    refine Eq.trans (congrArg (Option.map DriverRow.is_available)
      (findRow_setRow_eq DriverRow.driver_id db.drivers uid a _ ha ?_)) ?_
    · by_cases hon : a.is_online = true
      · simp only [if_pos hon]
      · simp only [if_neg hon]
    · by_cases hon : a.is_online = true
      · simp only [if_pos hon]
        rfl
      · simp only [if_neg hon]
        rfl
  · intro db did uid reason d a h ha
    unfold reject_delivery
    rw [h]
    dsimp only
    simp only [getAvailability_setDelivery, ha]
    by_cases hon : a.is_online = true
    · simp only [if_pos hon]
      simp only [getAvailability_emit]
      unfold getAvailability findDriver
      simp only [drivers_setDriver, drivers_emit, drivers_setDelivery]
      refine Eq.trans (congrArg (Option.map DriverRow.is_available)
        (findRow_setRow_eq DriverRow.driver_id db.drivers uid a _ ha rfl)) ?_
      rfl
    · simp only [if_neg hon]
      simp only [getAvailability_emit, getAvailability_setDelivery, ha]
      rfl
  · intro dist db did d uid a h hdr ha
    unfold reassign_delivery
    rw [h]
    dsimp only
    rw [hdr]
    dsimp only
    rw [ha]
    dsimp only
    split
    all_goals
      simp only [getAvailability_emit, getAvailability_setDelivery]
      unfold getAvailability findDriver
      simp only [drivers_setDriver, drivers_emit, drivers_setDelivery]
      exact Eq.trans (congrArg (Option.map DriverRow.is_available)
        (findRow_setRow_eq DriverRow.driver_id db.drivers uid a _ ha rfl)) rfl

/-- Witness for the amended C3: completion restores online driver 3,
rejection restores (offline-gates) driver 4, and reassignment of delivery 41
sets driver 2 available. -/
theorem c3_witness :
    (getAvailability (mark_delivered dbW2 51) 3).map DriverRow.is_available =
      some (if driverW2.is_online then true else driverW2.is_available) ∧
    (getAvailability (reject_delivery dbW2 52 4 "late").2 4).map DriverRow.is_available =
      some (if driverW3.is_online then true else driverW3.is_available) ∧
    (getAvailability (reassign_delivery dist0 dbW7 41).2 2).map DriverRow.is_available =
      some true :=
  ⟨c3_availability_restore_amended.1 dbW2 51 deliveryW2 3 driverW2 (by decide)
      (by decide) (by decide),
   c3_availability_restore_amended.2.1 dbW2 52 4 "late" deliveryW3 driverW3
      (by decide) (by decide),
   c3_availability_restore_amended.2.2 dist0 dbW7 41 deliveryW7 2 driverW7
      (by decide) (by decide) (by decide)⟩

/-- The search by order id still finds the written row after a save keyed on
delivery id, provided the written row keeps the delivery id of the found row and
carries the searched order id. -/
theorem findByOrder_setRow (l : List DeliveryRow) (oid : Nat) (d d1 : DeliveryRow)
    (h : l.find? (fun x => x.order_id == oid) = some d)
    (ho : d1.order_id = oid) (hi : d1.delivery_id = d.delivery_id) :
    (setRow DeliveryRow.delivery_id l d1).find? (fun x => x.order_id == oid) = some d1 := by
  induction l with
  | nil => simp [List.find?] at h
  | cons hd tl ih =>
    by_cases hhd : (hd.order_id == oid) = true
    · have hda : hd = d := by
        have h2 := h
        rw [@List.find?_cons_of_pos _ (fun x => x.order_id == oid) hd tl hhd] at h2
        exact Option.some.inj h2
      have hcond : (hd.delivery_id == d1.delivery_id) = true := by
        rw [hda, ← hi]
        exact beq_self_eq_true _
      have hp : (d1.order_id == oid) = true := by
        rw [ho]
        exact beq_self_eq_true _
      simp only [setRow, List.map, if_pos hcond]
      exact @List.find?_cons_of_pos _ (fun x => x.order_id == oid) d1 _ hp
    · have htl : tl.find? (fun x => x.order_id == oid) = some d := by
        have h2 := h
        rwa [@List.find?_cons_of_neg _ (fun x => x.order_id == oid) hd tl hhd] at h2
      by_cases hcond : (hd.delivery_id == d1.delivery_id) = true
      · have hp : (d1.order_id == oid) = true := by
          rw [ho]
          exact beq_self_eq_true _
        simp only [setRow, List.map, if_pos hcond]
        exact @List.find?_cons_of_pos _ (fun x => x.order_id == oid) d1 _ hp
      · simp only [setRow, List.map, if_neg hcond]
        rw [@List.find?_cons_of_neg _ (fun x => x.order_id == oid) hd _ hhd]
        exact ih htl

/-- After _mark_for_manual_assignment, the delivery row of the order exists, is
pending, and carries the manual-assignment note. -/
theorem manual_marker (db : DB) (oid : Nat) (reason : String) :
    ∃ d2, getDeliveryByOrder (mark_for_manual_assignment db oid reason) oid = some d2 ∧
      d2.status = DStatus.pending ∧
      d2.driver_notes = reason ++ " - requires manual assignment" := by
  unfold mark_for_manual_assignment
  cases hd : getDeliveryByOrder db oid with
  | some d =>
    refine ⟨{ d with status := DStatus.pending, driver_notes := reason ++ " - requires manual assignment" }, ?_, rfl, rfl⟩
    have hbeq := @List.find?_some DeliveryRow (fun x => x.order_id == oid) d db.deliveries hd
    unfold getDeliveryByOrder findDeliveryByOrder
    simp only [deliveries_setDelivery]
    exact findByOrder_setRow db.deliveries oid d _ hd (eq_of_beq hbeq) rfl
  | none =>
    refine ⟨{ delivery_id := db.next_delivery_id, order_id := oid, driver := none, status := DStatus.pending, pickup_latitude := none, pickup_longitude := none, delivery_latitude := none, delivery_longitude := none, distance_km := none, driver_notes := reason ++ " - requires manual assignment", assigned_at := none, accepted_at := none, actual_delivery_time := none }, ?_, rfl, rfl⟩
    unfold getDeliveryByOrder findDeliveryByOrder
    dsimp only
    exact find?_append_of_none _ db.deliveries _ hd (beq_self_eq_true oid)

/-- Every failure path of assign_delivery_to_driver (missing order, missing
restaurant coordinates, no candidates) leaves the state untouched. -/
theorem assign_continue_fail (dist : DistFn) (db : DB) (order : OrderRow)
    (existing : Option DeliveryRow)
    (h : (assign_continue dist db order existing).1 = none) :
    (assign_continue dist db order existing).2 = db := by
  unfold assign_continue at h ⊢
  by_cases hc : (!truthy order.restaurant_latitude || !truthy order.restaurant_longitude) = true
  · rw [if_pos hc]
  · rw [if_neg hc] at h ⊢
    dsimp only at h ⊢
    cases hn : find_available_drivers dist db (order.restaurant_latitude.getD 0)
        (order.restaurant_longitude.getD 0) 10 with
    | nil =>
      rfl
    | cons best rest =>
      rw [hn] at h
      dsimp only at h
      simp at h

/-- assign_delivery_to_driver mutates nothing when it returns no delivery. -/
theorem assign_fail_unchanged (dist : DistFn) (db : DB) (oid : Nat)
    (h : (assign_delivery_to_driver dist db oid).1 = none) :
    (assign_delivery_to_driver dist db oid).2 = db := by
  unfold assign_delivery_to_driver at h ⊢
  cases ho : getOrder db oid with
  | none => rfl
  | some order =>
    rw [ho] at h
    dsimp only at h ⊢
    cases hd : getDeliveryByOrder db oid with
    | some d =>
      rw [hd] at h
      dsimp only at h ⊢
      by_cases hdr : d.driver.isSome = true
      · rw [if_pos hdr] at h
        simp at h
      · rw [if_neg hdr] at h ⊢
        exact assign_continue_fail dist db order (some d) h
    | none =>
      rw [hd] at h
      dsimp only at h ⊢
      exact assign_continue_fail dist db order none h

/-- C6: Retry escalation to manual assignment — for an existing order that is
not already assigned: while the retry budget is not exhausted
(current_retry < max_retries), both failure causes (no online drivers; no
suitable candidate found) return a failure marked retryable and mutate
nothing; once current_retry ≥ max_retries, the result is non-retryable and
the state is the manual-assignment state, in which the delivery of the order
exists with status pending and a driver_notes marker ending in
"requires manual assignment" — the order is never left without the marker. -/
theorem c6_retry_escalation (dist : DistFn) (db : DB) (oid mr cr : Nat)
    (o : OrderRow) (horder : getOrder db oid = some o)
    (hna : ∀ d, getDeliveryByOrder db oid = some d →
      d.driver = none ∨ d.status = DStatus.pending) :
    (onlineDriversCount db = 0 → cr < mr →
      process_delivery_assignment dist db oid mr cr =
        (⟨false, some "No drivers online", some true, none, none, false⟩, db)) ∧
    (onlineDriversCount db = 0 → cr ≥ mr →
      (process_delivery_assignment dist db oid mr cr).1 =
        ⟨false, some "No drivers online", some false, none, none, false⟩ ∧
      (process_delivery_assignment dist db oid mr cr).2 =
        mark_for_manual_assignment db oid "No drivers online" ∧
      ∃ d2, getDeliveryByOrder (process_delivery_assignment dist db oid mr cr).2 oid
          = some d2 ∧ d2.status = DStatus.pending ∧
        d2.driver_notes = "No drivers online" ++ " - requires manual assignment") ∧
    (onlineDriversCount db ≠ 0 → (assign_delivery_to_driver dist db oid).1 = none →
      cr < mr →
      process_delivery_assignment dist db oid mr cr =
        (⟨false, some "All drivers busy", some true, none, none, false⟩, db)) ∧
    (onlineDriversCount db ≠ 0 → (assign_delivery_to_driver dist db oid).1 = none →
      cr ≥ mr →
      (process_delivery_assignment dist db oid mr cr).1 =
        ⟨false, some "All drivers busy", some false, none, none, false⟩ ∧
      ∃ d2, getDeliveryByOrder (process_delivery_assignment dist db oid mr cr).2 oid
          = some d2 ∧ d2.status = DStatus.pending ∧
        d2.driver_notes = "All drivers busy" ++ " - requires manual assignment") := by
  have hstep : process_delivery_assignment dist db oid mr cr =
      process_step3 dist db oid mr cr := by
    unfold process_delivery_assignment
    rw [horder]
    dsimp only
    cases h2 : getDeliveryByOrder db oid with
    | none => rfl
    | some d =>
      have hcond : (d.driver.isSome && d.status != DStatus.pending) = false := by
        rcases hna d h2 with hx | hx
        · rw [hx]
          rfl
        · rw [hx]
          simp
      dsimp only
      rw [hcond]
      rfl
  refine ⟨?_, ?_, ?_, ?_⟩
  · intro hcount hlt
    rw [hstep]
    unfold process_step3
    rw [hcount]
    simp [Nat.not_le.mpr hlt]
  · intro hcount hge
    have hall : process_delivery_assignment dist db oid mr cr =
        (⟨false, some "No drivers online", some false, none, none, false⟩,
          mark_for_manual_assignment db oid "No drivers online") := by
      rw [hstep]
      unfold process_step3
      rw [hcount]
      simp [hge]
    refine ⟨by rw [hall], by rw [hall], ?_⟩
    rw [hall]
    exact manual_marker db oid "No drivers online"
  · intro hcount hfail hlt
    have hc : (onlineDriversCount db == 0) = false := by
      cases hx : onlineDriversCount db with
      | zero => exact absurd hx hcount
      | succ n => rfl
    have hun := assign_fail_unchanged dist db oid hfail
    rw [hstep]
    unfold process_step3
    rw [hc]
    dsimp only
    rw [hfail, hun]
    simp [Nat.not_le.mpr hlt]
  · intro hcount hfail hge
    have hc : (onlineDriversCount db == 0) = false := by
      cases hx : onlineDriversCount db with
      | zero => exact absurd hx hcount
      | succ n => rfl
    have hun := assign_fail_unchanged dist db oid hfail
    have hall : process_delivery_assignment dist db oid mr cr =
        (⟨false, some "All drivers busy", some false, none, none, false⟩,
          mark_for_manual_assignment db oid "All drivers busy") := by
      rw [hstep]
      unfold process_step3
      rw [hc]
      dsimp only
      rw [hfail, hun]
      simp [hge]
    refine ⟨by rw [hall], ?_⟩
    rw [hall]
    exact manual_marker db oid "All drivers busy"

/-- Witness for C6 at concrete states: order 4 with zero online drivers
(retryable below budget, manual marker at budget), and order 5 whose only
online driver is busy (assignment fails; same escalation). -/
theorem c6_witness :
    (process_delivery_assignment dist0 dbW6a 4 3 0 =
      (⟨false, some "No drivers online", some true, none, none, false⟩, dbW6a)) ∧
    ((process_delivery_assignment dist0 dbW6a 4 3 3).1 =
        ⟨false, some "No drivers online", some false, none, none, false⟩ ∧
      (process_delivery_assignment dist0 dbW6a 4 3 3).2 =
        mark_for_manual_assignment dbW6a 4 "No drivers online" ∧
      ∃ d2, getDeliveryByOrder (process_delivery_assignment dist0 dbW6a 4 3 3).2 4
          = some d2 ∧ d2.status = DStatus.pending ∧
        d2.driver_notes = "No drivers online" ++ " - requires manual assignment") ∧
    (process_delivery_assignment dist0 dbW6b 5 3 0 =
      (⟨false, some "All drivers busy", some true, none, none, false⟩, dbW6b)) ∧
    ((process_delivery_assignment dist0 dbW6b 5 3 3).1 =
        ⟨false, some "All drivers busy", some false, none, none, false⟩ ∧
      ∃ d2, getDeliveryByOrder (process_delivery_assignment dist0 dbW6b 5 3 3).2 5
          = some d2 ∧ d2.status = DStatus.pending ∧
        d2.driver_notes = "All drivers busy" ++ " - requires manual assignment") := by
  have hna6a : ∀ d, getDeliveryByOrder dbW6a 4 = some d →
      d.driver = none ∨ d.status = DStatus.pending := by
    intro d hd
    rw [(by decide : getDeliveryByOrder dbW6a 4 = (none : Option DeliveryRow))] at hd
    exact Option.noConfusion hd
  have hna6b : ∀ d, getDeliveryByOrder dbW6b 5 = some d →
      d.driver = none ∨ d.status = DStatus.pending := by
    intro d hd
    rw [(by decide : getDeliveryByOrder dbW6b 5 = (none : Option DeliveryRow))] at hd
    exact Option.noConfusion hd
  refine ⟨?_, ?_, ?_, ?_⟩
  · exact (c6_retry_escalation dist0 dbW6a 4 3 0 ⟨4, some 2, some 2, none, none, "pending", none⟩
      (by decide) hna6a).1 (by decide) (by decide)
  · exact (c6_retry_escalation dist0 dbW6a 4 3 3 ⟨4, some 2, some 2, none, none, "pending", none⟩
      (by decide) hna6a).2.1 (by decide) (by decide)
  · exact (c6_retry_escalation dist0 dbW6b 5 3 0 ⟨5, some 2, some 2, none, none, "pending", none⟩
      (by decide) hna6b).2.2.1 (by decide) (by decide) (by decide)
  · exact (c6_retry_escalation dist0 dbW6b 5 3 3 ⟨5, some 2, some 2, none, none, "pending", none⟩
      (by decide) hna6b).2.2.2 (by decide) (by decide) (by decide)

/-- Two states with the same driver table agree on every availability read. -/
theorem getAvailability_ext (db1 db2 : DB) (h : db1.drivers = db2.drivers)
    (uid : Nat) : getAvailability db1 uid = getAvailability db2 uid := by
  unfold getAvailability findDriver
  rw [h]

/-- assign_continue never touches the driver table. -/
theorem drivers_assign_continue (dist : DistFn) (db : DB) (order : OrderRow)
    (existing : Option DeliveryRow) :
    ((assign_continue dist db order existing).2).drivers = db.drivers := by
  unfold assign_continue
  by_cases hc : (!truthy order.restaurant_latitude || !truthy order.restaurant_longitude) = true
  · rw [if_pos hc]
  · rw [if_neg hc]
    dsimp only
    cases hn : find_available_drivers dist db (order.restaurant_latitude.getD 0)
        (order.restaurant_longitude.getD 0) 10 with
    | nil => rfl
    | cons best rest =>
      dsimp only
      cases existing with
      | some d0 => simp
      | none => simp

/-- assign_delivery_to_driver never touches the driver table. -/
theorem drivers_assign_delivery_to_driver (dist : DistFn) (db : DB) (oid : Nat) :
    ((assign_delivery_to_driver dist db oid).2).drivers = db.drivers := by
  unfold assign_delivery_to_driver
  cases ho : getOrder db oid with
  | none => rfl
  | some order =>
    dsimp only
    cases hd : getDeliveryByOrder db oid with
    | some d =>
      dsimp only
      by_cases hdr : d.driver.isSome = true
      · rw [if_pos hdr]
      · rw [if_neg hdr]
        exact drivers_assign_continue dist db order (some d)
    | none => exact drivers_assign_continue dist db order none

/-- The driver table reassign_delivery leaves behind: untouched, except that
the previous driver of the delivery (when present, with an availability row)
is saved with is_available set to true. -/
theorem drivers_reassign_delivery (dist : DistFn) (db : DB) (did : Nat) :
    ((reassign_delivery dist db did).2).drivers =
      (match getDelivery db did with
       | none => db.drivers
       | some delivery =>
         match delivery.driver with
         | none => db.drivers
         | some uid =>
           match getAvailability db uid with
           | none => db.drivers
           | some a => setRow DriverRow.driver_id db.drivers { a with is_available := true }) := by
  unfold reassign_delivery
  cases h : getDelivery db did with
  | none => rfl
  | some delivery =>
    dsimp only
    cases hdr : delivery.driver with
    | none =>
      dsimp only
      cases hn : find_available_drivers dist db (delivery.pickup_latitude.getD 0)
          (delivery.pickup_longitude.getD 0) 10 with
      | nil => rfl
      | cons best rest => simp
    | some uid =>
      dsimp only
      cases hav : getAvailability db uid with
      | none =>
        dsimp only
        cases hn : find_available_drivers dist db (delivery.pickup_latitude.getD 0)
            (delivery.pickup_longitude.getD 0) 10 with
        | nil => rfl
        | cons best rest => simp
      | some a =>
        dsimp only
        cases hn : find_available_drivers dist
            (setDriver db { a with is_available := true })
            (delivery.pickup_latitude.getD 0) (delivery.pickup_longitude.getD 0) 10 with
        | nil => simp
        | cons best rest => simp

/-- C7 counterexample: in dbC7, driver 1 starts with is_available = false;
reassign_delivery on delivery 1 succeeds and chooses driver 1 again (the
released previous driver, the only qualifying candidate), so the flag of the
chosen driver has changed (to true) — refuting the claim that the flag of
the chosen driver is left unchanged by every successful assignment. -/
theorem c7_counterexample :
    (getAvailability dbC7 1).map DriverRow.is_available = some false ∧
    (reassign_delivery dist0 dbC7 1).1.map DeliveryRow.driver = some (some 1) ∧
    (getAvailability (reassign_delivery dist0 dbC7 1).2 1).map DriverRow.is_available
      = some true := by
  refine ⟨by decide, by decide, by decide⟩

/-- C7 (amended): assign_delivery_to_driver leaves the whole driver table —
in particular the is_available of the chosen driver — unchanged, and the
flag is flipped to false with accepted_at stamped exactly by
Delivery.accept_delivery; reassign_delivery also never sets any flag to
false, but it leaves the flag of the chosen driver unchanged only via the
general rule that the sole flag it writes is the previous driver of the
delivery, set to true — which touches the chosen driver whenever that
previous driver is re-chosen. -/
theorem c7_assignment_not_claiming_amended :
    (∀ dist db oid, ((assign_delivery_to_driver dist db oid).2).drivers = db.drivers) ∧
    (∀ db did d uid a, getDelivery db did = some d → d.driver = some uid →
        getAvailability db uid = some a →
        (getDelivery (accept_delivery db did) did).map DeliveryRow.status
          = some DStatus.accepted ∧
        (getDelivery (accept_delivery db did) did).map DeliveryRow.accepted_at
          = some (some db.now) ∧
        (getAvailability (accept_delivery db did) uid).map DriverRow.is_available
          = some false) ∧
    (∀ dist db did uid a, getAvailability db uid = some a →
        (getAvailability (reassign_delivery dist db did).2 uid).map DriverRow.is_available
          = some a.is_available ∨
        ((getAvailability (reassign_delivery dist db did).2 uid).map DriverRow.is_available
          = some true ∧
         (getDelivery db did).map DeliveryRow.driver = some (some uid))) := by
  refine ⟨?_, ?_, ?_⟩
  · intro dist db oid
    exact drivers_assign_delivery_to_driver dist db oid
  · intro db did d uid a h hdr ha
    have hres : accept_delivery db did =
        setDriver (setDelivery db { d with status := DStatus.accepted, accepted_at := some db.now })
          { a with is_available := false } := by
      unfold accept_delivery
      rw [h]
      dsimp only
      rw [hdr]
      dsimp only
      simp only [getAvailability_setDelivery, ha]
    refine ⟨?_, ?_, ?_⟩
    · rw [hres]
      simp only [getDelivery_setDriver]
      unfold getDelivery findDelivery
      simp only [deliveries_setDelivery]
      rw [findRow_setRow_eq DeliveryRow.delivery_id db.deliveries did d
        { d with status := DStatus.accepted, accepted_at := some db.now } h rfl]
      rfl
    · rw [hres]
      simp only [getDelivery_setDriver]
      unfold getDelivery findDelivery
      simp only [deliveries_setDelivery]
      rw [findRow_setRow_eq DeliveryRow.delivery_id db.deliveries did d
        { d with status := DStatus.accepted, accepted_at := some db.now } h rfl]
      rfl
    · rw [hres]
      unfold getAvailability findDriver
      simp only [drivers_setDriver, drivers_setDelivery]
      rw [findRow_setRow_eq DriverRow.driver_id db.drivers uid a
        { a with is_available := false } ha rfl]
      rfl
  · intro dist db did uid a ha
    have haf : List.find? (fun x => x.driver_id == uid) db.drivers = some a := ha
    have hdrv := drivers_reassign_delivery dist db did
    cases h : getDelivery db did with
    | none =>
      left
      rw [h] at hdrv
      rw [getAvailability_ext ((reassign_delivery dist db did).2) db hdrv uid, ha]
      rfl
    | some delivery =>
      rw [h] at hdrv
      dsimp only at hdrv
      cases hdr : delivery.driver with
      | none =>
        left
        rw [hdr] at hdrv
        dsimp only at hdrv
        rw [getAvailability_ext ((reassign_delivery dist db did).2) db hdrv uid, ha]
        rfl
      | some uid0 =>
        rw [hdr] at hdrv
        dsimp only at hdrv
        cases hav : getAvailability db uid0 with
        | none =>
          left
          rw [hav] at hdrv
          dsimp only at hdrv
          rw [getAvailability_ext ((reassign_delivery dist db did).2) db hdrv uid, ha]
          rfl
        | some a0 =>
          rw [hav] at hdrv
          dsimp only at hdrv
          have hget : getAvailability ((reassign_delivery dist db did).2) uid =
              List.find? (fun x => x.driver_id == uid)
                (setRow DriverRow.driver_id db.drivers { a0 with is_available := true }) := by
            unfold getAvailability findDriver
            rw [hdrv]
          have hid0 : a0.driver_id = uid0 :=
            eq_of_beq (@List.find?_some DriverRow (fun x => x.driver_id == uid0) a0
              db.drivers hav)
          by_cases hu : uid0 = uid
          · right
            have haa : a0 = a := by
              rw [hu] at hav
              rw [ha] at hav
              exact (Option.some.inj hav).symm
            constructor
            · have hset := findRow_setRow_eq DriverRow.driver_id db.drivers uid a0
                { a0 with is_available := true } (by rw [haa]; exact haf) rfl
              rw [hget, hset]
              rfl
            · dsimp only [Option.map]
              rw [hdr, hu]
          · left
            have hne : ({ a0 with is_available := true } : DriverRow).driver_id ≠ uid := by
              dsimp only
              rw [hid0]
              exact hu
            rw [hget, findRow_setRow_ne DriverRow.driver_id db.drivers uid
              { a0 with is_available := true } hne, haf]
            rfl

/-- Witness for the amended C7: assignment on dbW1 keeps the driver table;
accepting delivery 41 flips driver 2 unavailable with accepted_at stamped;
reassigning delivery 41 either keeps a flag or sets the previous driver
available. -/
theorem c7_witness :
    ((assign_delivery_to_driver dist0 dbW1 1).2).drivers = dbW1.drivers ∧
    ((getDelivery (accept_delivery dbW7 41) 41).map DeliveryRow.status
        = some DStatus.accepted ∧
      (getDelivery (accept_delivery dbW7 41) 41).map DeliveryRow.accepted_at
        = some (some dbW7.now) ∧
      (getAvailability (accept_delivery dbW7 41) 2).map DriverRow.is_available
        = some false) ∧
    ((getAvailability (reassign_delivery dist0 dbW7 41).2 2).map DriverRow.is_available
        = some driverW7.is_available ∨
      ((getAvailability (reassign_delivery dist0 dbW7 41).2 2).map DriverRow.is_available
        = some true ∧
       (getDelivery dbW7 41).map DeliveryRow.driver = some (some 2))) :=
  ⟨c7_assignment_not_claiming_amended.1 dist0 dbW1 1,
   c7_assignment_not_claiming_amended.2.1 dbW7 41 deliveryW7 2 driverW7 (by decide)
     (by decide) (by decide),
   c7_assignment_not_claiming_amended.2.2 dist0 dbW7 41 2 driverW7 (by decide)⟩

/-- reassign_delivery only appends to the event log. -/
theorem events_reassign_delivery (dist : DistFn) (db : DB) (did : Nat) :
    ((reassign_delivery dist db did).2).events = db.events ∨
    ∃ ev, ((reassign_delivery dist db did).2).events = db.events ++ [ev] := by
  unfold reassign_delivery
  cases hd : getDelivery db did with
  | none => exact Or.inl rfl
  | some delivery =>
    dsimp only
    cases hdr : delivery.driver with
    | none =>
      dsimp only
      cases hn : find_available_drivers dist db (delivery.pickup_latitude.getD 0)
          (delivery.pickup_longitude.getD 0) 10 with
      | nil => exact Or.inl rfl
      | cons b r =>
        dsimp only
        exact Or.inr ⟨Event.driverNewDelivery b.driver.driver_id delivery.delivery_id, by simp⟩
    | some uid =>
      dsimp only
      cases hav : getAvailability db uid with
      | none =>
        dsimp only
        cases hn : find_available_drivers dist db (delivery.pickup_latitude.getD 0)
            (delivery.pickup_longitude.getD 0) 10 with
        | nil => exact Or.inl rfl
        | cons b r =>
          dsimp only
          exact Or.inr ⟨Event.driverNewDelivery b.driver.driver_id delivery.delivery_id, by simp⟩
      | some a =>
        dsimp only
        cases hn : find_available_drivers dist
            (setDriver db { a with is_available := true })
            (delivery.pickup_latitude.getD 0) (delivery.pickup_longitude.getD 0) 10 with
        | nil => exact Or.inl (by simp)
        | cons b r =>
          dsimp only
          exact Or.inr ⟨Event.driverNewDelivery b.driver.driver_id delivery.delivery_id, by simp⟩

/-- Events already logged survive reassign_delivery. -/
theorem mem_events_reassign (dist : DistFn) (db : DB) (did : Nat) (e : Event)
    (h : e ∈ db.events) : e ∈ ((reassign_delivery dist db did).2).events := by
  rcases events_reassign_delivery dist db did with he | ⟨ev, he⟩
  · rw [he]
    exact h
  · rw [he]
    exact List.mem_append_left _ h

/-- C8: the claimed timeout escalation is broken by a missing symbol in the
code.  State dbW8 satisfies the exact trigger of the claim — delivery 4 is
still assigned, with driver 9, and 301 seconds have elapsed since
assigned_at — yet check_assignment_timeout aborts with an uncaught
ImportError (tasks.py line 66 from-imports notify_driver_delivery_reassigned,
a name defined nowhere in the repository): no notification is emitted, no
reassignment happens, and the state is untouched (the delivery stays
assigned to driver 9).  On the degenerate driver-less timed-out delivery of
dbW8b the guard is falsy, the failing from-import never executes, and
reassign_delivery does run. -/
theorem c8_import_error_aborts :
    deliveryW8.status = DStatus.assigned ∧
    deliveryW8.assigned_at = some 0 ∧
    (dbW8.now : ℤ) - ((0 : Nat) : ℤ) ≥ 300 ∧
    deliveryW8.driver = some 9 ∧
    check_assignment_timeout dist0 dbW8 4 = (TimeoutAction.import_error, dbW8) ∧
    (getDelivery (check_assignment_timeout dist0 dbW8 4).2 4).map DeliveryRow.status
      = some DStatus.assigned ∧
    (getDelivery (check_assignment_timeout dist0 dbW8 4).2 4).map DeliveryRow.driver
      = some (some 9) ∧
    (check_assignment_timeout dist0 dbW8 4).2.events = [] ∧
    (check_assignment_timeout dist0 dbW8b 8).1 = TimeoutAction.reassigned_no_driver := by
  refine ⟨by decide, by decide, by decide, by decide, by decide, by decide, by decide,
    by decide, by decide⟩

/-- C9: Three-tier task fallback — run_task_safe queues and returns
immediately when the async queue is enabled and submission succeeds; when
submission fails or async is disabled it starts the fallback thread and
returns true once started; when the thread cannot be started it runs the
fallback inline, returning the success of that call — so the returned
boolean is false exactly when no tier succeeded (queue disabled-or-failed,
thread failed, inline call failed). -/
theorem c9_three_tier_fallback (cfg : TaskConfig) (env : TaskEnv) :
    (cfg.ENABLE_CELERY = true → env.queue_submit_ok = true →
      run_task_safe cfg env = TaskTier.queued) ∧
    ((cfg.ENABLE_CELERY = false ∨ env.queue_submit_ok = false) →
      env.thread_start_ok = true →
      run_task_safe cfg env = TaskTier.thread_started) ∧
    ((cfg.ENABLE_CELERY = false ∨ env.queue_submit_ok = false) →
      env.thread_start_ok = false →
      run_task_safe cfg env = TaskTier.ran_inline env.sync_call_ok) ∧
    ((run_task_safe cfg env).toBool = false ↔
      ((cfg.ENABLE_CELERY = true → env.queue_submit_ok = false) ∧
        env.thread_start_ok = false ∧ env.sync_call_ok = false)) := by
  rcases cfg with ⟨c⟩
  rcases env with ⟨q, th, s⟩
  cases c <;> cases q <;> cases th <;> cases s <;>
    simp [run_task_safe, run_fallback, TaskTier.toBool]

/-- Witness for C9: with the queue enabled and healthy, the work is queued. -/
theorem c9_witness : run_task_safe ⟨true⟩ ⟨true, true, true⟩ = TaskTier.queued :=
  (c9_three_tier_fallback ⟨true⟩ ⟨true, true, true⟩).1 rfl rfl

end Foodapp
